import Mathlib

/-!
Verification of the profile-management controllers of the t15-modified-rba
repository (controllers/profileController.js, utils/email.js, models/User.js,
routes/profile.js) against its natural-language specification.

The JavaScript source is shallowly embedded: a controller invocation becomes a
pure function from the request inputs, an environment of external collaborators
(bcrypt, the clock, express-validator, process.env, the SMTP transport) and the
current store state to an `OpResult` holding the HTTP response, the resulting
store state, and the sendEmail calls that were made.
-/

namespace RBA

/-- One audit entry of `user.profileUpdates` (models/User.js profileUpdateSchema):
field, oldValue, newValue, updatedAt.  Values stored by the controllers are all
strings; timestamps are modelled as naturals (milliseconds). -/
structure ProfileUpdate where
  field : String
  oldValue : String
  newValue : String
  updatedAt : Nat
deriving Repr, DecidableEq

/-- Account record (models/User.js userSchema), restricted to the fields the
profile controllers read or write.  `role`, `lastLoginAt` and the automatic
schema timestamps are never touched by this code and are omitted. -/
structure UserRec where
  id : Nat
  name : String
  email : String
  password : String
  emailVerified : Bool
  isDeleted : Bool
  profileUpdates : List ProfileUpdate
deriving Repr, DecidableEq

/-- Token record.  Modelled from the spec: models/Token.js is not under src/;
its shape is given by the spec (§3) and by the controllers' calls:
owning account reference `user`, `tokenHash` for one-time tokens (none for
refresh sessions, which carry an opaque id instead), `type`
("refresh" / "verify" / "reset"), `expiresAt`, `revoked` (default false),
`used` (default false). -/
structure TokenRec where
  user : Nat
  tokenHash : Option String
  type : String
  expiresAt : Nat
  revoked : Bool
  used : Bool
deriving Repr, DecidableEq

/-- The durable record store: the users collection and the tokens collection. -/
structure DB where
  users : List UserRec
  tokens : List TokenRec
deriving Repr, DecidableEq

/-- Argument object of utils/email.js sendEmail.  `toAddr` models the `to`
field (`to` is a reserved word in Lean). -/
structure EmailMsg where
  toAddr : String
  subject : String
  text : String
  html : String
deriving Repr, DecidableEq

/-- What one call of utils/email.js sendEmail did: `thrown` is the exception
that escaped the function, if any; `deliveryAttempted` records whether
`transporter.sendMail` was invoked; `logs` the console output. -/
structure SendResult where
  thrown : Option String
  deliveryAttempted : Bool
  logs : List String
deriving Repr, DecidableEq

/-- utils/email.js sendEmail, parameterised by the module-level transporter
state `tr` and by the behaviour `outcome` the external `transporter.sendMail`
call would have (an ok response string, or a thrown error).  The source returns
early with a console.error when the transporter is not initialized, and wraps
the sendMail call in try/catch, turning a delivery error into a logged message:
no branch lets an exception escape. -/
def sendEmailWith (tr : Option Unit) (outcome : Except String String)
    (m : EmailMsg) : SendResult :=
  match tr with
  | none =>
      { thrown := none, deliveryAttempted := false,
        logs := ["Error: Transporter is not initialized."] }
  | some _ =>
      let debugLogs := ["Email settings:", "To: " ++ m.toAddr,
                        "Subject: " ++ m.subject, "Text: " ++ m.text,
                        "HTML: " ++ m.html, "Mail options:"]
      match outcome with
      | Except.ok info =>
          { thrown := none, deliveryAttempted := true,
            logs := debugLogs ++ ["Email sent successfully: " ++ info] }
      | Except.error e =>
          { thrown := none, deliveryAttempted := true,
            logs := debugLogs ++ ["Error sending email: " ++ e] }

/-- utils/email.js line 5: `let transporter = null;` — the "Initialize
transporter with SMTP settings" section is an empty comment and no assignment
to `transporter` occurs anywhere in the module. -/
def transporter : Option Unit := none

/-- utils/email.js sendEmail as exported: it closes over the module-level
`transporter`. -/
def sendEmail (outcome : Except String String) (m : EmailMsg) : SendResult :=
  sendEmailWith transporter outcome m

/-- External collaborators and ambient inputs of one controller invocation:
the express-validator verdict, bcrypt, the token utilities (utils/tokens.js is
not under src/; modelled from the spec: `genRandomToken` yields a fresh
high-entropy random secret, `hashToken` is its one-way hash), the clock,
process.env (`baseURL` is BASE_URL), the JS `encodeURIComponent` builtin, and
the behaviour the external SMTP transport would exhibit if invoked.
`configOneTimeTokenTTL` models the recognized one-time-token TTL configuration
option of the spec (§6); whether the code under src/ reads it is settled by the
theorems below. -/
structure Env where
  validationOk : Bool
  bcryptCompare : String → String → Bool
  bcryptHash : String → String
  genRandomToken : String
  hashToken : String → String
  now : Nat
  baseURL : String
  encodeURIComponent : String → String
  emailOutcome : Except String String
  configOneTimeTokenTTL : Nat

/-- Mongoose `User.findById(id)`. -/
def findById (users : List UserRec) (id : Nat) : Option UserRec :=
  users.find? (fun u => u.id == id)

/-- Mongoose `User.findOne({ email })`. -/
def findOneByEmail (users : List UserRec) (email : String) : Option UserRec :=
  users.find? (fun u => u.email == email)

/-- Mongoose `user.save()`: the stored record with the document's id is
replaced by the document. -/
def saveUser (users : List UserRec) (u : UserRec) : List UserRec :=
  users.map (fun v => if v.id == u.id then u else v)

/-- Mongoose `Token.updateMany(filter, ...)` setting revoked.  Modelled from the spec: the
record store offers updateMany with conditional-match semantics — every record
matching the filter gets `revoked := true`, the rest are untouched. -/
def revokeMatching (tokens : List TokenRec) (p : TokenRec → Bool) :
    List TokenRec :=
  tokens.map (fun t => if p t then { t with revoked := true } else t)

/-- HTTP response, abstracted to status code and the message of the JSON body
(the express-validator errors array is abstracted to a fixed message). -/
structure Resp where
  status : Nat
  message : String
deriving Repr, DecidableEq

/-- Result of one controller invocation: response, resulting store, and the
sendEmail calls made (the message passed, and what sendEmail did). -/
structure OpResult where
  resp : Resp
  db : DB
  emails : List (EmailMsg × SendResult)
deriving Repr, DecidableEq

/-- The name branch of updateProfile (source lines 32-35):
`if (name && name !== user.name)` pushes an audit entry and mutates the
in-memory document.  JS truthiness of the optional string: absent or empty is
falsy.  Returns the pushed entries and the (possibly mutated) document. -/
def nameStep (user : UserRec) (name : Option String) (now : Nat) :
    List ProfileUpdate × UserRec :=
  match name with
  | some n =>
      if n != "" && n != user.name then
        ([{ field := "name", oldValue := user.name, newValue := n,
            updatedAt := now }],
         { user with name := n })
      else ([], user)
  | none => ([], user)

/-- The verification email built at source lines 53-59. -/
def verifyMsg (env : Env) (email : String) : EmailMsg :=
  let verifyUrl := env.baseURL ++ "/api/auth/verify-email?token="
      ++ env.genRandomToken ++ "&email=" ++ env.encodeURIComponent email
  { toAddr := email, subject := "Verify your new email",
    text := "Please verify your new email: " ++ verifyUrl,
    html := "<p>Please verify your email by clicking <a href=\"" ++ verifyUrl
      ++ "\">here</a></p>" }

/-- controllers/profileController.js updateProfile (PUT /api/profile,
source lines 20-69). -/
def updateProfile (env : Env) (reqUserId : Nat) (name email : Option String)
    (db : DB) : OpResult :=
  if !env.validationOk then ⟨⟨400, "Validation error"⟩, db, []⟩
  else
    match findById db.users reqUserId with
    | none => ⟨⟨404, "User not found"⟩, db, []⟩
    | some user0 =>
      let step1 := nameStep user0 name env.now
      let updates1 := step1.1
      let user1 := step1.2
      match email with
      | some e =>
        if e != "" && e != user0.email then
          match findOneByEmail db.users e with
          | some _ => ⟨⟨400, "Email already in use"⟩, db, []⟩
          | none =>
            let updates2 := updates1 ++
              [{ field := "email", oldValue := user0.email, newValue := e,
                 updatedAt := env.now }]
            let user2 := { user1 with email := e, emailVerified := false }
            let tokenHash := env.hashToken env.genRandomToken
            let expires := env.now + 1000 * 60 * 60 * 24
            let tokens1 := db.tokens ++
              [{ user := user0.id, tokenHash := some tokenHash,
                 type := "verify", expiresAt := expires,
                 revoked := false, used := false }]
            let msg := verifyMsg env e
            let sr := sendEmail env.emailOutcome msg
            match sr.thrown with
            | some err => ⟨⟨500, err⟩, { db with tokens := tokens1 }, [(msg, sr)]⟩
            | none =>
              let user3 :=
                if updates2.length != 0 then
                  { user2 with profileUpdates := user2.profileUpdates ++ updates2 }
                else user2
              ⟨⟨200, "Profile updated"⟩,
               { users := saveUser db.users user3, tokens := tokens1 },
               [(msg, sr)]⟩
        else
          let user3 :=
            if updates1.length != 0 then
              { user1 with profileUpdates := user1.profileUpdates ++ updates1 }
            else user1
          ⟨⟨200, "Profile updated"⟩,
           { db with users := saveUser db.users user3 }, []⟩
      | none =>
        let user3 :=
          if updates1.length != 0 then
            { user1 with profileUpdates := user1.profileUpdates ++ updates1 }
          else user1
        ⟨⟨200, "Profile updated"⟩,
         { db with users := saveUser db.users user3 }, []⟩

/-- The password-change notification email built at source lines 102-107. -/
def passwordChangedMsg (u : UserRec) : EmailMsg :=
  { toAddr := u.email, subject := "Your password was changed",
    text := "Hi " ++ u.name ++ ",\n\nYour account password was changed. If this was not you, please contact support immediately.",
    html := "<p>Hi " ++ u.name ++ ",</p><p>Your account password was changed. If this was not you, please contact support immediately.</p>" }

/-- controllers/profileController.js changePassword (PUT /api/profile/password,
source lines 72-111). -/
def changePassword (env : Env) (reqUserId : Nat)
    (currentPassword newPassword : String) (db : DB) : OpResult :=
  if !env.validationOk then ⟨⟨400, "Validation error"⟩, db, []⟩
  else
    match findById db.users reqUserId with
    | none => ⟨⟨404, "User not found"⟩, db, []⟩
    | some user =>
      if user.isDeleted then ⟨⟨403, "Account deactivated"⟩, db, []⟩
      else if !env.bcryptCompare currentPassword user.password then
        ⟨⟨400, "Current password is incorrect"⟩, db, []⟩
      else
        let hashed := env.bcryptHash newPassword
        let entry : ProfileUpdate :=
          { field := "password", oldValue := "****", newValue := "****",
            updatedAt := env.now }
        let user1 :=
          { user with password := hashed,
                      profileUpdates := user.profileUpdates ++ [entry] }
        let db1 : DB := { db with users := saveUser db.users user1 }
        let db2 : DB :=
          { db1 with tokens := revokeMatching db1.tokens
                       (fun t => t.user == user.id && t.type == "refresh") }
        let msg := passwordChangedMsg user
        let sr := sendEmail env.emailOutcome msg
        match sr.thrown with
        | some err => ⟨⟨500, err⟩, db2, [(msg, sr)]⟩
        | none => ⟨⟨200, "Password updated"⟩, db2, [(msg, sr)]⟩

/-- The deactivation notification email built at source lines 126-131. -/
def deactivatedMsg (u : UserRec) : EmailMsg :=
  { toAddr := u.email, subject := "Account deactivated",
    text := "Hi " ++ u.name ++ ",\n\nYour account was deactivated. To restore, contact admin or use the restore endpoint if available.",
    html := "<p>Hi " ++ u.name ++ ",</p><p>Your account was deactivated.</p>" }

/-- controllers/profileController.js softDeleteProfile (DELETE /api/profile,
source lines 114-135). -/
def softDeleteProfile (env : Env) (reqUserId : Nat) (db : DB) : OpResult :=
  match findById db.users reqUserId with
  | none => ⟨⟨404, "User not found"⟩, db, []⟩
  | some user =>
    if user.isDeleted then ⟨⟨400, "Account already deactivated"⟩, db, []⟩
    else
      let user1 := { user with isDeleted := true }
      let db1 : DB := { db with users := saveUser db.users user1 }
      let db2 : DB :=
        { db1 with tokens := revokeMatching db1.tokens
                     (fun t => t.user == user.id) }
      let msg := deactivatedMsg user
      let sr := sendEmail env.emailOutcome msg
      match sr.thrown with
      | some err => ⟨⟨500, err⟩, db2, [(msg, sr)]⟩
      | none => ⟨⟨200, "Account deactivated"⟩, db2, [(msg, sr)]⟩

/-- A concrete environment used by the witnesses: bcrypt is modelled by a
deterministic tag, the hash by a prefix marker. -/
def env0 : Env :=
  { validationOk := true
    bcryptCompare := fun p h => (p ++ "#") == h
    bcryptHash := fun p => p ++ "#"
    genRandomToken := "RAWSECRET"
    hashToken := fun s => "h:" ++ s
    now := 1000
    baseURL := "http://localhost:4000"
    encodeURIComponent := fun s => s
    emailOutcome := Except.ok "250 OK"
    configOneTimeTokenTTL := 777 }

def alice : UserRec :=
  { id := 1, name := "Alice", email := "a@x.com", password := "pw#",
    emailVerified := true, isDeleted := false, profileUpdates := [] }

def bob : UserRec :=
  { id := 2, name := "Bob", email := "b@x.com", password := "qq#",
    emailVerified := true, isDeleted := false, profileUpdates := [] }

def tokR1 : TokenRec :=
  { user := 1, tokenHash := none, type := "refresh", expiresAt := 5000,
    revoked := false, used := false }

def tokR2 : TokenRec :=
  { user := 1, tokenHash := none, type := "refresh", expiresAt := 6000,
    revoked := false, used := false }

def tokV1 : TokenRec :=
  { user := 1, tokenHash := some "h:OLD", type := "verify", expiresAt := 9000,
    revoked := false, used := false }

def db0 : DB := { users := [alice, bob], tokens := [tokR1, tokR2, tokV1] }

/-- The document persisted by updateProfile when the email branch is not
taken: the name mutation plus its audit entry, if any. -/
def nameOnlyDoc (user : UserRec) (nm : Option String) (now : Nat) : UserRec :=
  if ((nameStep user nm now).1).length != 0 then
    { (nameStep user nm now).2 with
        profileUpdates := (nameStep user nm now).2.profileUpdates ++
          (nameStep user nm now).1 }
  else (nameStep user nm now).2

/-- The account document persisted by updateProfile on an email change:
possibly-renamed, new unverified email, audit entries appended. -/
def emailChangedDoc (env : Env) (user : UserRec) (nm : Option String)
    (e : String) : UserRec :=
  { user with
      name := (nameStep user nm env.now).2.name
      email := e
      emailVerified := false
      profileUpdates := user.profileUpdates ++
        ((nameStep user nm env.now).1 ++
         [{ field := "email", oldValue := user.email, newValue := e,
            updatedAt := env.now }]) }

/-! ## Audit-log predicates -/

/-- An audit entry appended by this code while `u` became `v`: it carries the
timestamp of the operation and records the changed field with its old and new
value (the password entry stores the mask the source stores, per its comment
"store no raw password"). -/
def entryOk (u v : UserRec) (now : Nat) (e : ProfileUpdate) : Prop :=
  e.updatedAt = now ∧
    ((e.field = "name" ∧ e.oldValue = u.name ∧ e.newValue = v.name) ∨
     (e.field = "email" ∧ e.oldValue = u.email ∧ e.newValue = v.email) ∨
     (e.field = "password" ∧ e.oldValue = "****" ∧ e.newValue = "****"))

/-- The users collection `after` extends `before` audit-wise: every stored
record corresponds to a record of `before` with the same id whose
profileUpdates sequence is a prefix of the new one (existing entries unchanged
and in order), and every appended entry satisfies `entryOk`. -/
def auditExtended (before after : List UserRec) (now : Nat) : Prop :=
  ∀ v ∈ after, ∃ u ∈ before, u.id = v.id ∧
    ∃ s, v.profileUpdates = u.profileUpdates ++ s ∧ ∀ e ∈ s, entryOk u v now e

/-! ## Helper lemmas -/

lemma sendEmail_eval (o : Except String String) (m : EmailMsg) :
    sendEmail o m =
      { thrown := none, deliveryAttempted := false,
        logs := ["Error: Transporter is not initialized."] } := rfl

lemma findById_id {l : List UserRec} {id : Nat} {u : UserRec}
    (h : findById l id = some u) : u.id = id := by
  have h2 := List.find?_some h
  simpa using h2

lemma findById_mem {l : List UserRec} {id : Nat} {u : UserRec}
    (h : findById l id = some u) : u ∈ l :=
  List.mem_of_find?_eq_some h

lemma findById_saveUser {l : List UserRec} {id : Nat} {u : UserRec}
    (w : UserRec) (h : findById l id = some u) (hid : w.id = u.id) :
    findById (saveUser l w) id = some w := by
  have huid : u.id = id := findById_id h
  induction l with
  | nil => simp [findById] at h
  | cons a l ih =>
    by_cases hpa : a.id = id
    · have haw : a.id = w.id := hpa.trans (hid.trans huid).symm
      have hsave : saveUser (a :: l) w = w :: saveUser l w := by
        simp [saveUser, haw]
      rw [hsave]
      have hw : w.id = id := hid.trans huid
      simp [findById, List.find?_cons_of_pos, hw]
    · have hstep : findById (a :: l) id = findById l id := by
        simp [findById, List.find?_cons_of_neg, hpa]
      rw [hstep] at h
      have hc : (a.id == w.id) = false := by
        simp [hid, huid]
        exact hpa
      have : findById (saveUser (a :: l) w) id = findById (saveUser l w) id := by
        simp only [saveUser, List.map_cons, hc, if_false]
        simp [findById, List.find?_cons_of_neg, hpa]
      rw [this]
      exact ih h

lemma revokeMatching_all_type (tokens : List TokenRec) (uid : Nat) (ty : String) :
    ∀ t ∈ revokeMatching tokens (fun s => s.user == uid && s.type == ty),
      t.user = uid → t.type = ty → t.revoked = true := by
  intro t ht hu hty
  simp only [revokeMatching, List.mem_map] at ht
  rcases ht with ⟨s, hs, hfs⟩
  by_cases hp : (s.user == uid && s.type == ty) = true
  · rw [if_pos hp] at hfs
    rw [← hfs]
  · rw [if_neg hp] at hfs
    subst hfs
    apply absurd hp
    simp [hu, hty]

lemma revokeMatching_all_user (tokens : List TokenRec) (uid : Nat) :
    ∀ t ∈ revokeMatching tokens (fun s => s.user == uid),
      t.user = uid → t.revoked = true := by
  intro t ht hu
  simp only [revokeMatching, List.mem_map] at ht
  rcases ht with ⟨s, hs, hfs⟩
  by_cases hp : (s.user == uid) = true
  · rw [if_pos hp] at hfs
    rw [← hfs]
  · rw [if_neg hp] at hfs
    subst hfs
    apply absurd hp
    simp [hu]

/-- Every execution of changePassword either exits on an error path, leaving
the store untouched and calling sendEmail never, or succeeds with exactly the
state transition the source performs: password hash replaced, one masked audit
entry appended, all refresh tokens of the account revoked, one notification
sent. -/
lemma changePassword_shape (env : Env) (uid : Nat) (cur npw : String)
    (db : DB) :
    ((changePassword env uid cur npw db).db = db ∧
     (changePassword env uid cur npw db).emails = [] ∧
     (changePassword env uid cur npw db).resp.status ≠ 200) ∨
    (∃ user, findById db.users uid = some user ∧ user.id = uid ∧
       env.validationOk = true ∧ user.isDeleted = false ∧
       env.bcryptCompare cur user.password = true ∧
       changePassword env uid cur npw db =
         ⟨⟨200, "Password updated"⟩,
          ⟨saveUser db.users
             { user with password := env.bcryptHash npw,
                         profileUpdates := user.profileUpdates ++
                           [{ field := "password", oldValue := "****",
                              newValue := "****", updatedAt := env.now }] },
           revokeMatching db.tokens
             (fun t => t.user == user.id && t.type == "refresh")⟩,
          [(passwordChangedMsg user,
            sendEmail env.emailOutcome (passwordChangedMsg user))]⟩) := by
  by_cases hval : env.validationOk = true
  case neg =>
    rw [Bool.not_eq_true] at hval
    exact Or.inl (by simp [changePassword, hval])
  rcases hfind : findById db.users uid with _ | user
  · exact Or.inl (by simp [changePassword, hval, hfind])
  by_cases hdel : user.isDeleted = true
  · exact Or.inl (by simp [changePassword, hval, hfind, hdel])
  rw [Bool.not_eq_true] at hdel
  by_cases hcmp : env.bcryptCompare cur user.password = true
  case neg =>
    rw [Bool.not_eq_true] at hcmp
    exact Or.inl (by simp [changePassword, hval, hfind, hdel, hcmp])
  refine Or.inr ⟨user, rfl, findById_id hfind, hval, hdel, hcmp, ?_⟩
  simp [changePassword, hval, hfind, hdel, hcmp, sendEmail, sendEmailWith,
    transporter]

/-- Every execution of softDeleteProfile either exits on an error path, leaving
the store untouched, or marks the account deleted, revokes every token of the
account (no type filter) and sends one notification. -/
lemma softDeleteProfile_shape (env : Env) (uid : Nat) (db : DB) :
    ((softDeleteProfile env uid db).db = db ∧
     (softDeleteProfile env uid db).emails = [] ∧
     (softDeleteProfile env uid db).resp.status ≠ 200) ∨
    (∃ user, findById db.users uid = some user ∧ user.id = uid ∧
       user.isDeleted = false ∧
       softDeleteProfile env uid db =
         ⟨⟨200, "Account deactivated"⟩,
          ⟨saveUser db.users { user with isDeleted := true },
           revokeMatching db.tokens (fun t => t.user == user.id)⟩,
          [(deactivatedMsg user,
            sendEmail env.emailOutcome (deactivatedMsg user))]⟩) := by
  rcases hfind : findById db.users uid with _ | user
  · exact Or.inl (by simp [softDeleteProfile, hfind])
  by_cases hdel : user.isDeleted = true
  · exact Or.inl (by simp [softDeleteProfile, hfind, hdel])
  rw [Bool.not_eq_true] at hdel
  refine Or.inr ⟨user, rfl, findById_id hfind, hdel, ?_⟩
  simp [softDeleteProfile, hfind, hdel, sendEmail, sendEmailWith, transporter]

lemma updateProfile_invalid (env : Env) (uid : Nat) (nm em : Option String)
    (db : DB) (h : env.validationOk = false) :
    updateProfile env uid nm em db = ⟨⟨400, "Validation error"⟩, db, []⟩ := by
  simp [updateProfile, h]

lemma updateProfile_notFound (env : Env) (uid : Nat) (nm em : Option String)
    (db : DB) (hval : env.validationOk = true)
    (h : findById db.users uid = none) :
    updateProfile env uid nm em db = ⟨⟨404, "User not found"⟩, db, []⟩ := by
  simp [updateProfile, hval, h]

lemma updateProfile_conflict (env : Env) (uid : Nat) (nm : Option String)
    (e : String) (db : DB) (user w : UserRec)
    (hval : env.validationOk = true)
    (hfind : findById db.users uid = some user)
    (hne0 : e ≠ "") (hne : e ≠ user.email)
    (hconf : findOneByEmail db.users e = some w) :
    updateProfile env uid nm (some e) db =
      ⟨⟨400, "Email already in use"⟩, db, []⟩ := by
  simp [updateProfile, hval, hfind, hconf, hne0, hne]

lemma updateProfile_emailNone (env : Env) (uid : Nat) (nm : Option String)
    (db : DB) (user : UserRec)
    (hval : env.validationOk = true)
    (hfind : findById db.users uid = some user) :
    updateProfile env uid nm none db =
      ⟨⟨200, "Profile updated"⟩,
       { db with users := saveUser db.users (nameOnlyDoc user nm env.now) },
       []⟩ := by
  simp [updateProfile, nameOnlyDoc, hval, hfind]

lemma updateProfile_emailSame (env : Env) (uid : Nat) (nm : Option String)
    (e : String) (db : DB) (user : UserRec)
    (hval : env.validationOk = true)
    (hfind : findById db.users uid = some user)
    (hsame : (e != "" && e != user.email) = false) :
    updateProfile env uid nm (some e) db =
      ⟨⟨200, "Profile updated"⟩,
       { db with users := saveUser db.users (nameOnlyDoc user nm env.now) },
       []⟩ := by
  simp [updateProfile, nameOnlyDoc, hval, hfind, hsame]

lemma updateProfile_email_shape (env : Env) (uid : Nat) (nm : Option String)
    (e : String) (db : DB) (user : UserRec)
    (hval : env.validationOk = true)
    (hfind : findById db.users uid = some user)
    (hne0 : e ≠ "") (hne : e ≠ user.email)
    (hconf : findOneByEmail db.users e = none) :
    updateProfile env uid nm (some e) db =
      ⟨⟨200, "Profile updated"⟩,
       ⟨saveUser db.users
          { user with name := (nameStep user nm env.now).2.name, email := e,
                      emailVerified := false,
                      profileUpdates := user.profileUpdates ++
                        ((nameStep user nm env.now).1 ++
                         [{ field := "email", oldValue := user.email,
                            newValue := e, updatedAt := env.now }]) },
        db.tokens ++
          [{ user := user.id,
             tokenHash := some (env.hashToken env.genRandomToken),
             type := "verify", expiresAt := env.now + 1000 * 60 * 60 * 24,
             revoked := false, used := false }]⟩,
       [(verifyMsg env e, sendEmail env.emailOutcome (verifyMsg env e))]⟩ := by
  cases nm with
  | none =>
    simp [updateProfile, nameStep, hval, hfind, hconf, hne0, hne, sendEmail,
      sendEmailWith, transporter]
  | some n =>
    by_cases hn : (n != "" && n != user.name) = true
    · simp [updateProfile, nameStep, hval, hfind, hconf, hne0, hne, hn,
        sendEmail, sendEmailWith, transporter]
    · rw [Bool.not_eq_true] at hn
      simp [updateProfile, nameStep, hval, hfind, hconf, hne0, hne, hn,
        sendEmail, sendEmailWith, transporter]

lemma auditExtended_refl (l : List UserRec) (now : Nat) :
    auditExtended l l now :=
  fun v hv => ⟨v, hv, rfl, [], by simp, by simp⟩

lemma auditExtended_save (l : List UserRec) (u w : UserRec) (now : Nat)
    (hu : u ∈ l) (hid : w.id = u.id)
    (hs : ∃ s, w.profileUpdates = u.profileUpdates ++ s ∧
            ∀ e ∈ s, entryOk u w now e) :
    auditExtended l (saveUser l w) now := by
  intro v hv
  simp only [saveUser, List.mem_map] at hv
  rcases hv with ⟨x, hx, hxv⟩
  by_cases hc : (x.id == w.id) = true
  · rw [if_pos hc] at hxv
    subst hxv
    exact ⟨u, hu, hid.symm, hs⟩
  · rw [if_neg hc] at hxv
    subst hxv
    exact ⟨x, hx, rfl, [], by simp, by simp⟩

lemma audit_nameOnly (l : List UserRec) (user : UserRec) (nm : Option String)
    (now : Nat) (hu : user ∈ l) :
    auditExtended l (saveUser l (nameOnlyDoc user nm now)) now := by
  cases nm with
  | none =>
    apply auditExtended_save l user _ now hu
    · simp [nameOnlyDoc, nameStep]
    · exact ⟨[], by simp [nameOnlyDoc, nameStep], by simp⟩
  | some n =>
    by_cases hn : (n != "" && n != user.name) = true
    · apply auditExtended_save l user _ now hu
      · simp [nameOnlyDoc, nameStep, hn]
      · refine ⟨[{ field := "name", oldValue := user.name, newValue := n,
                   updatedAt := now }], by simp [nameOnlyDoc, nameStep, hn], ?_⟩
        intro e he
        simp only [List.mem_singleton] at he
        subst he
        exact ⟨rfl, Or.inl ⟨rfl, rfl, by simp [nameOnlyDoc, nameStep, hn]⟩⟩
    · rw [Bool.not_eq_true] at hn
      apply auditExtended_save l user _ now hu
      · simp [nameOnlyDoc, nameStep, hn]
      · exact ⟨[], by simp [nameOnlyDoc, nameStep, hn], by simp⟩

lemma updateProfile_users_audit (env : Env) (uid : Nat) (nm em : Option String)
    (db : DB) :
    auditExtended db.users (updateProfile env uid nm em db).db.users
      env.now := by
  by_cases hval : env.validationOk = true
  case neg =>
    rw [Bool.not_eq_true] at hval
    rw [updateProfile_invalid env uid nm em db hval]
    exact auditExtended_refl _ _
  rcases hfind : findById db.users uid with _ | user
  · rw [updateProfile_notFound env uid nm em db hval hfind]
    exact auditExtended_refl _ _
  have hmem : user ∈ db.users := findById_mem hfind
  cases em with
  | none =>
    rw [updateProfile_emailNone env uid nm db user hval hfind]
    exact audit_nameOnly db.users user nm env.now hmem
  | some e =>
    by_cases hc : (e != "" && e != user.email) = true
    · have hne0 : e ≠ "" := by
        intro h
        subst h
        simp at hc
      have hne : e ≠ user.email := by
        intro h
        rw [h] at hc
        simp at hc
      rcases hconf : findOneByEmail db.users e with _ | w
      · rw [updateProfile_email_shape env uid nm e db user hval hfind hne0 hne
          hconf]
        refine auditExtended_save db.users user
          { user with name := (nameStep user nm env.now).2.name, email := e,
                      emailVerified := false,
                      profileUpdates := user.profileUpdates ++
                        ((nameStep user nm env.now).1 ++
                         [{ field := "email", oldValue := user.email,
                            newValue := e, updatedAt := env.now }]) }
          env.now hmem rfl
          ⟨(nameStep user nm env.now).1 ++
           [{ field := "email", oldValue := user.email, newValue := e,
              updatedAt := env.now }], rfl, ?_⟩
        intro x hx
        rw [List.mem_append] at hx
        rcases hx with hx | hx
        · cases nm with
          | none => simp [nameStep] at hx
          | some n =>
            by_cases hn : (n != "" && n != user.name) = true
            · simp only [nameStep, hn, if_true, List.mem_singleton] at hx
              subst hx
              exact ⟨rfl, Or.inl ⟨rfl, rfl, by simp [nameStep, hn]⟩⟩
            · rw [Bool.not_eq_true] at hn
              simp [nameStep, hn] at hx
        · simp only [List.mem_singleton] at hx
          subst hx
          exact ⟨rfl, Or.inr (Or.inl ⟨rfl, rfl, rfl⟩)⟩
      · rw [updateProfile_conflict env uid nm e db user w hval hfind hne0 hne
          hconf]
        exact auditExtended_refl _ _
    · rw [Bool.not_eq_true] at hc
      rw [updateProfile_emailSame env uid nm e db user hval hfind hc]
      exact audit_nameOnly db.users user nm env.now hmem

lemma changePassword_users_audit (env : Env) (uid : Nat) (cur npw : String)
    (db : DB) :
    auditExtended db.users (changePassword env uid cur npw db).db.users
      env.now := by
  rcases changePassword_shape env uid cur npw db with h |
    ⟨user, hfind, _, _, _, _, heq⟩
  · rw [h.1]
    exact auditExtended_refl _ _
  · rw [heq]
    refine auditExtended_save db.users user
      { user with password := env.bcryptHash npw,
                  profileUpdates := user.profileUpdates ++
                    [{ field := "password", oldValue := "****",
                       newValue := "****", updatedAt := env.now }] }
      env.now (findById_mem hfind) rfl
      ⟨[{ field := "password", oldValue := "****", newValue := "****",
          updatedAt := env.now }], rfl, ?_⟩
    intro x hx
    rw [List.mem_singleton] at hx
    subst hx
    exact ⟨rfl, Or.inr (Or.inr ⟨rfl, rfl, rfl⟩)⟩

/-- Every execution of updateProfile either calls sendEmail never, or calls it
exactly once. -/
lemma updateProfile_emails_shape (env : Env) (uid : Nat) (nm em : Option String)
    (db : DB) :
    (updateProfile env uid nm em db).emails = [] ∨
    ∃ m, (updateProfile env uid nm em db).emails
        = [(m, sendEmail env.emailOutcome m)] := by
  by_cases hval : env.validationOk = true
  case neg =>
    rw [Bool.not_eq_true] at hval
    rw [updateProfile_invalid env uid nm em db hval]
    exact Or.inl rfl
  rcases hfind : findById db.users uid with _ | user
  · rw [updateProfile_notFound env uid nm em db hval hfind]
    exact Or.inl rfl
  cases em with
  | none =>
    rw [updateProfile_emailNone env uid nm db user hval hfind]
    exact Or.inl rfl
  | some e =>
    by_cases hc : (e != "" && e != user.email) = true
    · have hc2 : e ≠ "" ∧ e ≠ user.email := by simpa using hc
      rcases hconf : findOneByEmail db.users e with _ | w
      · rw [updateProfile_email_shape env uid nm e db user hval hfind hc2.1
          hc2.2 hconf]
        exact Or.inr ⟨verifyMsg env e, rfl⟩
      · rw [updateProfile_conflict env uid nm e db user w hval hfind hc2.1
          hc2.2 hconf]
        exact Or.inl rfl
    · rw [Bool.not_eq_true] at hc
      rw [updateProfile_emailSame env uid nm e db user hval hfind hc]
      exact Or.inl rfl

/-! ## Claim theorems -/

/-- C1: For every account, after a successful changePassword the revocation
cascade is exhaustive over refresh sessions: every token record of type
"refresh" owned by that account has revoked = true afterwards, however many
such records existed before. -/
theorem changePassword_revokes_all_refresh_sessions (env : Env) (uid : Nat)
    (cur npw : String) (db : DB)
    (hok : (changePassword env uid cur npw db).resp.status = 200) :
    ∀ t ∈ (changePassword env uid cur npw db).db.tokens,
      t.user = uid → t.type = "refresh" → t.revoked = true := by
  intro t ht hu hty
  rcases changePassword_shape env uid cur npw db with h |
    ⟨user, hfind, huid, _, _, _, heq⟩
  · exact absurd hok h.2.2
  · rw [heq] at ht
    exact revokeMatching_all_type db.tokens user.id "refresh" t ht
      (by rw [hu, huid]) hty

/-- C1 witness: a concrete successful changePassword with two active refresh
sessions R1 and R2 — both are revoked. -/
theorem changePassword_revokes_all_refresh_sessions_witness :
    ({ tokR1 with revoked := true } : TokenRec).revoked = true ∧
    ({ tokR2 with revoked := true } : TokenRec).revoked = true :=
  ⟨changePassword_revokes_all_refresh_sessions env0 1 "pw" "npw" db0
     (by decide) { tokR1 with revoked := true } (by decide) (by decide)
     (by decide),
   changePassword_revokes_all_refresh_sessions env0 1 "pw" "npw" db0
     (by decide) { tokR2 with revoked := true } (by decide) (by decide)
     (by decide)⟩

/-- C2: in every successful execution of changePassword and softDeleteProfile
the bulk revocation is already applied in the store state that accompanies the
success response: observing status 200 implies the account's refresh sessions
(changePassword), resp. all its token records (softDeleteProfile), are revoked
in the resulting store. -/
theorem revocation_applied_before_success_response (env : Env) (uid : Nat)
    (cur npw : String) (db : DB) :
    ((changePassword env uid cur npw db).resp.status = 200 →
      ∀ t ∈ (changePassword env uid cur npw db).db.tokens,
        t.user = uid → t.type = "refresh" → t.revoked = true) ∧
    ((softDeleteProfile env uid db).resp.status = 200 →
      ∀ t ∈ (softDeleteProfile env uid db).db.tokens,
        t.user = uid → t.revoked = true) := by
  constructor
  · intro hok t ht hu hty
    rcases changePassword_shape env uid cur npw db with h |
      ⟨user, hfind, huid, _, _, _, heq⟩
    · exact absurd hok h.2.2
    · rw [heq] at ht
      exact revokeMatching_all_type db.tokens user.id "refresh" t ht
        (by rw [hu, huid]) hty
  · intro hok t ht hu
    rcases softDeleteProfile_shape env uid db with h |
      ⟨user, hfind, huid, _, heq⟩
    · exact absurd hok h.2.2
    · rw [heq] at ht
      exact revokeMatching_all_user db.tokens user.id t ht (by rw [hu, huid])

/-- C2 witness: concrete successful executions of both operations, with a
refresh session revoked after changePassword and a one-time token revoked
after softDeleteProfile. -/
theorem revocation_applied_before_success_response_witness :
    ({ tokR1 with revoked := true } : TokenRec).revoked = true ∧
    ({ tokV1 with revoked := true } : TokenRec).revoked = true :=
  ⟨(revocation_applied_before_success_response env0 1 "pw" "npw" db0).1
     (by decide) { tokR1 with revoked := true } (by decide) (by decide)
     (by decide),
   (revocation_applied_before_success_response env0 1 "pw" "npw" db0).2
     (by decide) { tokV1 with revoked := true } (by decide) (by decide)⟩

/-- C3: when updateProfile changes the email it sets emailVerified to false
and appends exactly one "verify" token record, storing only the one-way hash
of the freshly generated raw secret together with its expiry; the resulting
store depends on the raw secret only through its hash (so the raw secret is
never persisted), and the raw secret leaves the system only via the outbound
notification (inside the verification URL of the email). -/
theorem email_change_creates_single_hashed_verify_token (env : Env) (uid : Nat)
    (nm : Option String) (e : String) (db : DB) (user : UserRec)
    (hval : env.validationOk = true)
    (hfind : findById db.users uid = some user)
    (hne0 : e ≠ "") (hne : e ≠ user.email)
    (hconf : findOneByEmail db.users e = none) :
    (updateProfile env uid nm (some e) db).db.tokens =
      db.tokens ++
        [{ user := user.id,
           tokenHash := some (env.hashToken env.genRandomToken),
           type := "verify", expiresAt := env.now + 1000 * 60 * 60 * 24,
           revoked := false, used := false }] ∧
    (∃ u', findById (updateProfile env uid nm (some e) db).db.users uid
        = some u' ∧ u'.emailVerified = false ∧ u'.email = e) ∧
    (∀ raw2 : String,
       env.hashToken raw2 = env.hashToken env.genRandomToken →
       (updateProfile { env with genRandomToken := raw2 } uid nm (some e)
           db).db =
         (updateProfile env uid nm (some e) db).db) ∧
    (updateProfile env uid nm (some e) db).emails =
      [(verifyMsg env e, sendEmail env.emailOutcome (verifyMsg env e))] := by
  refine ⟨?_, ?_, ?_, ?_⟩
  · rw [updateProfile_email_shape env uid nm e db user hval hfind hne0 hne
      hconf]
  · rw [updateProfile_email_shape env uid nm e db user hval hfind hne0 hne
      hconf]
    exact ⟨emailChangedDoc env user nm e, findById_saveUser _ hfind rfl, rfl,
      rfl⟩
  · intro raw2 hraw
    rw [updateProfile_email_shape { env with genRandomToken := raw2 } uid nm e
      db user hval hfind hne0 hne hconf,
      updateProfile_email_shape env uid nm e db user hval hfind hne0 hne hconf]
    simp [hraw]
  · rw [updateProfile_email_shape env uid nm e db user hval hfind hne0 hne
      hconf]

/-- C3 witness: a concrete email change: the token store gains exactly the
hashed verify record and the raw secret is handed to sendEmail inside the
verification URL. -/
theorem email_change_creates_single_hashed_verify_token_witness :
    (updateProfile env0 1 none (some "new@x.com") db0).db.tokens =
      db0.tokens ++
        [{ user := alice.id,
           tokenHash := some (env0.hashToken env0.genRandomToken),
           type := "verify", expiresAt := env0.now + 1000 * 60 * 60 * 24,
           revoked := false, used := false }] ∧
    (updateProfile env0 1 none (some "new@x.com") db0).emails =
      [(verifyMsg env0 "new@x.com",
        sendEmail env0.emailOutcome (verifyMsg env0 "new@x.com"))] :=
  ⟨(email_change_creates_single_hashed_verify_token env0 1 none "new@x.com"
      db0 alice (by decide) (by decide) (by decide) (by decide)
      (by decide)).1,
   (email_change_creates_single_hashed_verify_token env0 1 none "new@x.com"
      db0 alice (by decide) (by decide) (by decide) (by decide)
      (by decide)).2.2.2⟩

/-- C4: after a successful softDeleteProfile the stored account has
isDeleted = true and every token record owned by that account — refresh
sessions and one-time tokens alike — is marked revoked = true. -/
theorem softDelete_marks_deleted_and_revokes_all_tokens (env : Env) (uid : Nat)
    (db : DB)
    (hok : (softDeleteProfile env uid db).resp.status = 200) :
    (∃ u', findById (softDeleteProfile env uid db).db.users uid = some u' ∧
       u'.isDeleted = true) ∧
    ∀ t ∈ (softDeleteProfile env uid db).db.tokens,
      t.user = uid → t.revoked = true := by
  rcases softDeleteProfile_shape env uid db with h | ⟨user, hfind, huid, _, heq⟩
  · exact absurd hok h.2.2
  constructor
  · rw [heq]
    exact ⟨{ user with isDeleted := true }, findById_saveUser _ hfind rfl, rfl⟩
  · intro t ht hu
    rw [heq] at ht
    exact revokeMatching_all_user db.tokens user.id t ht (by rw [hu, huid])

/-- C4 witness: a concrete soft-delete: the account is stored with
isDeleted = true and a one-time token of the account ends up revoked. -/
theorem softDelete_marks_deleted_and_revokes_all_tokens_witness :
    (∃ u', findById (softDeleteProfile env0 1 db0).db.users 1 = some u' ∧
       u'.isDeleted = true) ∧
    ({ tokV1 with revoked := true } : TokenRec).revoked = true :=
  ⟨(softDelete_marks_deleted_and_revokes_all_tokens env0 1 db0 (by decide)).1,
   (softDelete_marks_deleted_and_revokes_all_tokens env0 1 db0 (by decide)).2
     { tokV1 with revoked := true } (by decide) (by decide)⟩

/-- C5: sendEmail never lets an exception escape, whatever the transporter
state and the delivery outcome; consequently a changePassword that succeeded
still succeeds, with the same resulting store, when the notification email
would fail. -/
theorem sendEmail_never_throws_and_failures_nonfatal (tr : Option Unit)
    (outcome : Except String String) (m : EmailMsg) (env : Env) (uid : Nat)
    (cur npw err : String) (db : DB) :
    (sendEmailWith tr outcome m).thrown = none ∧
    ((changePassword env uid cur npw db).resp.status = 200 →
      (changePassword { env with emailOutcome := Except.error err } uid cur
          npw db).resp.status = 200 ∧
      (changePassword { env with emailOutcome := Except.error err } uid cur
          npw db).db = (changePassword env uid cur npw db).db) := by
  constructor
  · cases tr with
    | none => rfl
    | some u => cases outcome <;> rfl
  · intro hok
    have hsame : changePassword { env with emailOutcome := Except.error err }
        uid cur npw db = changePassword env uid cur npw db := rfl
    rw [hsame]
    exact ⟨hok, rfl⟩

/-- C5 witness: sendEmail returns normally on a failing delivery, and a
concrete changePassword still answers 200 when the SMTP outcome is an error. -/
theorem sendEmail_never_throws_and_failures_nonfatal_witness :
    (sendEmailWith (some ()) (Except.error "smtp down")
       (passwordChangedMsg alice)).thrown = none ∧
    (changePassword { env0 with emailOutcome := Except.error "smtp down" } 1
       "pw" "npw" db0).resp.status = 200 :=
  ⟨(sendEmail_never_throws_and_failures_nonfatal (some ())
      (Except.error "smtp down") (passwordChangedMsg alice) env0 1 "pw" "npw"
      "smtp down" db0).1,
   ((sendEmail_never_throws_and_failures_nonfatal (some ())
      (Except.error "smtp down") (passwordChangedMsg alice) env0 1 "pw" "npw"
      "smtp down" db0).2 (by decide)).1⟩

/-- C6: when the requested email differs from the caller's current email and
some account record with that email already exists, updateProfile answers 400
"Email already in use" and the store is entirely unchanged: no field updated,
no audit entry appended, no verify token created, no email sent. -/
theorem email_conflict_rejected_without_mutation (env : Env) (uid : Nat)
    (nm : Option String) (e : String) (db : DB) (user w : UserRec)
    (hval : env.validationOk = true)
    (hfind : findById db.users uid = some user)
    (hne0 : e ≠ "") (hne : e ≠ user.email)
    (hconf : findOneByEmail db.users e = some w) :
    updateProfile env uid nm (some e) db =
      ⟨⟨400, "Email already in use"⟩, db, []⟩ :=
  updateProfile_conflict env uid nm e db user w hval hfind hne0 hne hconf

/-- C6 witness: a concrete conflicting email change is rejected with the
store returned exactly as it was. -/
theorem email_conflict_rejected_without_mutation_witness :
    updateProfile env0 1 none (some "b@x.com") db0 =
      ⟨⟨400, "Email already in use"⟩, db0, []⟩ :=
  email_conflict_rejected_without_mutation env0 1 none "b@x.com" db0 alice bob
    (by decide) (by decide) (by decide) (by decide) (by decide)

/-- C7: the audit log is append-only: after every execution of updateProfile
and of changePassword, each stored account's profileUpdates sequence is the
old sequence followed by the new entries (existing entries unchanged, in
order), and each appended entry carries the operation timestamp and records
the changed field with its old and new value (masked for password). -/
theorem profileUpdates_append_only (env : Env) (uid : Nat)
    (nm em : Option String) (cur npw : String) (db : DB) :
    auditExtended db.users (updateProfile env uid nm em db).db.users env.now ∧
    auditExtended db.users (changePassword env uid cur npw db).db.users
      env.now :=
  ⟨updateProfile_users_audit env uid nm em db,
   changePassword_users_audit env uid cur npw db⟩

/-- C7 witness: the audit-extension property at a concrete name change. -/
theorem profileUpdates_append_only_witness :
    auditExtended db0.users
      (updateProfile env0 1 (some "Alicia") none db0).db.users env0.now :=
  (profileUpdates_append_only env0 1 (some "Alicia") none "pw" "npw" db0).1

/-- C8: changePassword is atomic on error: whenever it exits with a non-200
response — validation failure, account not found, account deactivated, or
current-password mismatch — the store is unchanged and sendEmail is never
called. -/
theorem changePassword_error_paths_atomic (env : Env) (uid : Nat)
    (cur npw : String) (db : DB)
    (herr : (changePassword env uid cur npw db).resp.status ≠ 200) :
    (changePassword env uid cur npw db).db = db ∧
    (changePassword env uid cur npw db).emails = [] := by
  rcases changePassword_shape env uid cur npw db with h |
    ⟨user, _, _, _, _, _, heq⟩
  · exact ⟨h.1, h.2.1⟩
  · rw [heq] at herr
    simp at herr

/-- C8 witness: a concrete wrong current password leaves the store untouched
and sends nothing. -/
theorem changePassword_error_paths_atomic_witness :
    (changePassword env0 1 "wrong" "npw" db0).db = db0 ∧
    (changePassword env0 1 "wrong" "npw" db0).emails = [] :=
  changePassword_error_paths_atomic env0 1 "wrong" "npw" db0 (by decide)

/-- C9: the module-level transporter is null and never assigned, so every
sendEmail call takes the uninitialized-transporter branch — it logs the error
and attempts no delivery — and consequently no controller operation ever
attempts to send an email. -/
theorem transporter_uninitialized_no_email_ever_sent
    (outcome : Except String String) (m : EmailMsg) (env : Env) (uid : Nat)
    (nm em : Option String) (cur npw : String) (db : DB) :
    transporter = none ∧
    sendEmail outcome m =
      { thrown := none, deliveryAttempted := false,
        logs := ["Error: Transporter is not initialized."] } ∧
    (∀ c ∈ (updateProfile env uid nm em db).emails,
       c.2.deliveryAttempted = false) ∧
    (∀ c ∈ (changePassword env uid cur npw db).emails,
       c.2.deliveryAttempted = false) ∧
    (∀ c ∈ (softDeleteProfile env uid db).emails,
       c.2.deliveryAttempted = false) := by
  refine ⟨rfl, rfl, ?_, ?_, ?_⟩
  · intro c hc
    rcases updateProfile_emails_shape env uid nm em db with h | ⟨m2, h⟩
    · rw [h] at hc
      simp at hc
    · rw [h] at hc
      rw [List.mem_singleton] at hc
      subst hc
      rfl
  · intro c hc
    rcases changePassword_shape env uid cur npw db with h |
      ⟨user, _, _, _, _, _, heq⟩
    · rw [h.2.1] at hc
      simp at hc
    · rw [heq] at hc
      rw [List.mem_singleton] at hc
      subst hc
      rfl
  · intro c hc
    rcases softDeleteProfile_shape env uid db with h | ⟨user, _, _, _, heq⟩
    · rw [h.2.1] at hc
      simp at hc
    · rw [heq] at hc
      rw [List.mem_singleton] at hc
      subst hc
      rfl

/-- C9 witness: the transporter is none, and the sendEmail call a concrete
successful changePassword makes attempts no delivery. -/
theorem transporter_uninitialized_no_email_ever_sent_witness :
    transporter = none ∧
    (passwordChangedMsg alice,
      sendEmail env0.emailOutcome
        (passwordChangedMsg alice)).2.deliveryAttempted = false :=
  ⟨(transporter_uninitialized_no_email_ever_sent (Except.ok "250 OK")
      (passwordChangedMsg alice) env0 1 none none "pw" "npw" db0).1,
   (transporter_uninitialized_no_email_ever_sent (Except.ok "250 OK")
      (passwordChangedMsg alice) env0 1 none none "pw" "npw" db0).2.2.2.1
     (passwordChangedMsg alice,
      sendEmail env0.emailOutcome (passwordChangedMsg alice)) (by decide)⟩

/-- C10: the verify token issued on an email change always expires exactly
24 hours (1000*60*60*24 ms) after issuance, and the whole operation is
independent of the one-time-token TTL configuration option — the TTL is a
fixed constant in the code. -/
theorem verify_token_ttl_fixed_24_hours (env : Env) (uid : Nat)
    (nm : Option String) (e : String) (db : DB) (user : UserRec)
    (hval : env.validationOk = true)
    (hfind : findById db.users uid = some user)
    (hne0 : e ≠ "") (hne : e ≠ user.email)
    (hconf : findOneByEmail db.users e = none) :
    (∀ c : Nat,
       updateProfile { env with configOneTimeTokenTTL := c } uid nm (some e) db
         = updateProfile env uid nm (some e) db) ∧
    ∃ tok : TokenRec,
      (updateProfile env uid nm (some e) db).db.tokens = db.tokens ++ [tok] ∧
      tok.type = "verify" ∧
      tok.expiresAt = env.now + 1000 * 60 * 60 * 24 := by
  constructor
  · intro c
    rfl
  · refine ⟨{ user := user.id,
              tokenHash := some (env.hashToken env.genRandomToken),
              type := "verify", expiresAt := env.now + 1000 * 60 * 60 * 24,
              revoked := false, used := false }, ?_, rfl, rfl⟩
    rw [updateProfile_email_shape env uid nm e db user hval hfind hne0 hne
      hconf]

/-- C10 witness: a concrete email change is unaffected by the configured TTL
value and produces a token expiring at now + 86400000 ms. -/
theorem verify_token_ttl_fixed_24_hours_witness :
    updateProfile { env0 with configOneTimeTokenTTL := 5 } 1 none
        (some "new@x.com") db0 =
      updateProfile env0 1 none (some "new@x.com") db0 ∧
    ∃ tok : TokenRec,
      (updateProfile env0 1 none (some "new@x.com") db0).db.tokens
        = db0.tokens ++ [tok] ∧ tok.type = "verify" ∧
      tok.expiresAt = env0.now + 1000 * 60 * 60 * 24 :=
  ⟨(verify_token_ttl_fixed_24_hours env0 1 none "new@x.com" db0 alice
      (by decide) (by decide) (by decide) (by decide) (by decide)).1 5,
   (verify_token_ttl_fixed_24_hours env0 1 none "new@x.com" db0 alice
      (by decide) (by decide) (by decide) (by decide) (by decide)).2⟩

end RBA
